import Mathlib

/-!
Verification of the product-catalog service in `src/app.js` (Express routes
`GET /api/products` and `POST /api/products` over a MongoDB store and a Redis
cache-aside layer).

Modelling conventions:
* JavaScript numbers are modelled by `ℚ`, with `Option ℚ` where `NaN` can
  arise (`none` is `NaN`).  No claim depends on binary floating point.
* The request body fields come from `express.json`, so `name` and
  `description` are modelled as `Option String` (`none` = absent/`undefined`;
  JSON `null` behaves identically to `undefined` in every reachable branch of
  the handlers, so it is folded into `none`).  `price` may be a number, a
  string, or absent, modelled by `JSVal`.
* The Redis cache stores `JSON.stringify(products)` and the handler serves
  `JSON.parse` of it.  Since `JSON.stringify` of an array is a non-empty
  (hence truthy) string and `JSON.parse` inverts it, the cache entry is
  modelled as the deserialized snapshot `Option (List Product)`:
  `some l` is exactly the states in which `redisClient.get` returns a truthy
  payload deserializing to `l`.
* Each request's interaction with the external store and cache is
  parametrised by an `Env` of operation outcomes (connectivity, thrown
  errors), so the handlers become pure functions of
  (system state, env, request body).
-/

/-- JS `s.trim()`: strip whitespace from both ends of the string. -/
def trimStr (s : String) : String :=
  ⟨((s.toList.dropWhile Char.isWhitespace).reverse.dropWhile Char.isWhitespace).reverse⟩

/-- JS string → number conversion helper: value of a digit list. -/
def digitsVal (ds : List Char) : Nat :=
  ds.foldl (fun a c => a * 10 + (c.toNat - 48)) 0

/-- Optional exponent suffix of a JS numeral (`e`/`E`, optional sign, digits).
If no well-formed exponent follows, nothing is consumed. -/
def parseExp : List Char → Int × List Char
  | c :: rest =>
    if c = 'e' ∨ c = 'E' then
      match rest with
      | '+' :: r2 =>
        let ds := r2.takeWhile Char.isDigit
        if ds.isEmpty then (0, c :: rest)
        else ((digitsVal ds : Int), r2.dropWhile Char.isDigit)
      | '-' :: r2 =>
        let ds := r2.takeWhile Char.isDigit
        if ds.isEmpty then (0, c :: rest)
        else (-(digitsVal ds : Int), r2.dropWhile Char.isDigit)
      | r2 =>
        let ds := r2.takeWhile Char.isDigit
        if ds.isEmpty then (0, c :: rest)
        else ((digitsVal ds : Int), r2.dropWhile Char.isDigit)
    else (0, c :: rest)
  | [] => (0, [])

/-- Unsigned decimal mantissa (digits with optional fraction); `none` if there
is no digit at all. -/
def parseMantissa (cs : List Char) : Option (ℚ × List Char) :=
  let intDs := cs.takeWhile Char.isDigit
  let rest1 := cs.dropWhile Char.isDigit
  match rest1 with
  | '.' :: r2 =>
    let fracDs := r2.takeWhile Char.isDigit
    if intDs.isEmpty && fracDs.isEmpty then none
    else some ((digitsVal intDs : ℚ) + (digitsVal fracDs : ℚ) / (10 : ℚ) ^ fracDs.length,
      r2.dropWhile Char.isDigit)
  | _ =>
    if intDs.isEmpty then none
    else some ((digitsVal intDs : ℚ), rest1)

/-- Signed decimal numeral with optional exponent; returns the value and the
unconsumed remainder. -/
def parseSignedNum (cs : List Char) : Option (ℚ × List Char) :=
  let signSplit : Bool × List Char :=
    match cs with
    | '-' :: r => (true, r)
    | '+' :: r => (false, r)
    | r => (false, r)
  match parseMantissa signSplit.2 with
  | none => none
  | some (m, rest) =>
    let er := parseExp rest
    let v := m * (10 : ℚ) ^ er.1
    some (if signSplit.1 then -v else v, er.2)

/-- JS `Number(s)` for a string `s`: trim, empty is `0`, otherwise the whole
string must be a decimal numeral; `none` is `NaN`.  (Hexadecimal and
`Infinity` literals are outside the inputs this service meets.) -/
def strToNum (s : String) : Option ℚ :=
  let cs := s.toList.dropWhile Char.isWhitespace
  let cs2 := (cs.reverse.dropWhile Char.isWhitespace).reverse
  if cs2.isEmpty then some 0
  else
    match parseSignedNum cs2 with
    | some (v, []) => some v
    | _ => none

/-- JS `parseFloat(s)`: skip leading whitespace, parse the longest numeral
prefix; `none` is `NaN`. -/
def parseFloatStr (s : String) : Option ℚ :=
  match parseSignedNum (s.toList.dropWhile Char.isWhitespace) with
  | some (v, _) => some v
  | none => none

/-- A JSON-decoded JavaScript value as it can appear in `req.body.price`:
a (finite) number, a string, or absent. -/
inductive JSVal where
  | num (q : ℚ)
  | str (s : String)
  | undef
deriving Repr, DecidableEq

/-- JS `Number(v)` coercion (`none` = `NaN`). -/
def JSVal.toNumber : JSVal → Option ℚ
  | .num q => some q
  | .str s => strToNum s
  | .undef => none

/-- JS truthiness of the value (`0`, `""`, `undefined` are falsy). -/
def JSVal.truthy : JSVal → Bool
  | .num q => decide (q ≠ 0)
  | .str s => decide (s ≠ "")
  | .undef => false

/-- JS `isNaN(v)`: coerce to number, test for `NaN`. -/
def JSVal.isNaNJS (v : JSVal) : Bool := v.toNumber.isNone

/-- JS `v < 0`: coerce to number and compare; comparisons with `NaN` are
false. -/
def JSVal.ltZero (v : JSVal) : Bool :=
  match v.toNumber with
  | some q => decide (q < 0)
  | none => false

/-- JS `parseFloat(v)` (`none` = `NaN`). -/
def JSVal.parseFloatJS : JSVal → Option ℚ
  | .num q => some q
  | .str s => parseFloatStr s
  | .undef => none

/-- A persisted product document (`productSchema`: name, price, description).
`price = none` models a `NaN` price (the schema imposes no constraint). -/
structure Product where
  name : String
  price : Option ℚ
  description : String
deriving Repr, DecidableEq

/-- The externally visible state: the MongoDB collection (in insertion
order) and the Redis entry under the fixed key `'products'` (deserialized
snapshot, `none` when the key is absent or expired). -/
structure SysState where
  store : List Product
  cache : Option (List Product)
deriving Repr, DecidableEq

/-- The error object thrown by a failed `save()` (fields read by the POST
catch handler). -/
structure JsError where
  name : String
  code : Option Nat
  message : String
deriving Repr, DecidableEq

/-- Outcomes of the external-service interactions of one request:
`cacheReady` is `redisClient && redisClient.isReady`; the `…Ok` flags say
whether the corresponding awaited call succeeds or throws; `findErrMsg` is
the message of a failed `Product.find`, `saveErr` the error thrown by a
failed `save()`. -/
structure Env where
  cacheReady : Bool
  cacheGetOk : Bool
  cacheSetOk : Bool
  findOk : Bool
  saveOk : Bool
  refreshFindOk : Bool
  findErrMsg : String
  saveErr : JsError
deriving Repr, DecidableEq

/-- The JSON body of a `GET /api/products` response. -/
structure GetResponse where
  status : Nat
  success : Bool
  data : Option (List Product)
  message : Option String
  error : Option String
deriving Repr, DecidableEq

/-- Result of a GET request: response, post-state, plus instrumentation:
whether `Product.find` ran, and the `redisClient.set` calls issued
(payload, `EX` expiry seconds). -/
structure GetResult where
  resp : GetResponse
  state : SysState
  storeQueried : Bool
  cacheSets : List (List Product × Nat)
deriving Repr, DecidableEq

/-- The value of `cachedProducts` after the guarded `redisClient.get`:
`null` unless the client is ready and the `get` succeeds. -/
def cacheLookup (st : SysState) (env : Env) : Option (List Product) :=
  if env.cacheReady && env.cacheGetOk then st.cache else none

/-- `app.get('/api/products')` (src/app.js lines 107-161). -/
def handleGet (st : SysState) (env : Env) : GetResult :=
  match cacheLookup st env with
  | some cached =>
    { resp := { status := 200, success := true, data := some cached,
                message := some "Products retrieved from cache", error := none }
      state := st, storeQueried := false, cacheSets := [] }
  | none =>
    if env.findOk then
      let products := st.store
      let okResp : GetResponse :=
        { status := 200, success := true, data := some products,
          message := some "Products retrieved successfully", error := none }
      if env.cacheReady && decide (products.length > 0) then
        { resp := okResp
          state := { st with cache := if env.cacheSetOk then some products else st.cache }
          storeQueried := true, cacheSets := [(products, 3600)] }
      else
        { resp := okResp, state := st, storeQueried := true, cacheSets := [] }
    else
      { resp := { status := 500, success := false, data := none,
                  message := none, error := some env.findErrMsg }
        state := st, storeQueried := true, cacheSets := [] }

/-- The JSON body of a `POST /api/products` request. -/
structure PostBody where
  name : Option String
  price : JSVal
  description : Option String
deriving Repr, DecidableEq

/-- JS `!name` for the name field (falsy when absent or empty). -/
def nameFalsy : Option String → Bool
  | none => true
  | some s => s == ""

/-- The first validation guard: `if (!name || !price)`. -/
def requiredMissing (b : PostBody) : Bool :=
  nameFalsy b.name || !b.price.truthy

/-- The second validation guard: `if (isNaN(price) || price < 0)`. -/
def badPrice (b : PostBody) : Bool :=
  b.price.isNaNJS || b.price.ltZero

/-- The document built by `new Product({name: name.trim(), price:
parseFloat(price), description: description ? description.trim() : ''})`. -/
def mkProduct (b : PostBody) : Product :=
  { name := trimStr (b.name.getD "")
    price := b.price.parseFloatJS
    description :=
      match b.description with
      | some s => if s == "" then "" else trimStr s
      | none => "" }

/-- The JSON body of a `POST /api/products` response. -/
structure PostResponse where
  status : Nat
  success : Bool
  data : Option Product
  message : Option String
  error : Option String
deriving Repr, DecidableEq

/-- Result of a POST request: response, post-state, and the
`redisClient.set` calls issued (payload, `EX` expiry seconds). -/
structure PostResult where
  resp : PostResponse
  state : SysState
  cacheSets : List (List Product × Nat)
deriving Repr, DecidableEq

/-- `app.post('/api/products')` (src/app.js lines 166-245).  Note that the
cache-refresh `Product.find` of line 201 sits inside the `try` whose `catch`
is the Redis catch, so its failure is swallowed like a cache error. -/
def handlePost (st : SysState) (env : Env) (b : PostBody) : PostResult :=
  if requiredMissing b then
    { resp := { status := 400, success := false, data := none, message := none,
                error := some "Name and price are required fields" }
      state := st, cacheSets := [] }
  else if badPrice b then
    { resp := { status := 400, success := false, data := none, message := none,
                error := some "Price must be a valid positive number" }
      state := st, cacheSets := [] }
  else if env.saveOk then
    let saved := mkProduct b
    let st1 : SysState := { st with store := st.store ++ [saved] }
    let okResp : PostResponse :=
      { status := 201, success := true, data := some saved,
        message := some "Product created successfully", error := none }
    if env.cacheReady then
      if env.refreshFindOk then
        let allProducts := st1.store
        { resp := okResp
          state := if env.cacheSetOk then { st1 with cache := some allProducts } else st1
          cacheSets := [(allProducts, 3600)] }
      else
        { resp := okResp, state := st1, cacheSets := [] }
    else
      { resp := okResp, state := st1, cacheSets := [] }
  else
    let e := env.saveErr
    if e.name == "ValidationError" then
      { resp := { status := 400, success := false, data := none, message := none,
                  error := some ("Validation error: " ++ e.message) }
        state := st, cacheSets := [] }
    else if e.code == some 11000 then
      { resp := { status := 409, success := false, data := none, message := none,
                  error := some "Product with this name already exists" }
        state := st, cacheSets := [] }
    else
      { resp := { status := 500, success := false, data := none, message := none,
                  error := some e.message }
        state := st, cacheSets := [] }

/-- An environment in which every external call succeeds. -/
def envAllOk : Env :=
  { cacheReady := true, cacheGetOk := true, cacheSetOk := true,
    findOk := true, saveOk := true, refreshFindOk := true,
    findErrMsg := "", saveErr := { name := "", code := none, message := "" } }

/-- An environment with the cache backend unreachable and the store up:
a GET in it is a cache-bypassed `listAll`. -/
def envBypassCache : Env :=
  { cacheReady := false, cacheGetOk := false, cacheSetOk := false,
    findOk := true, saveOk := true, refreshFindOk := true,
    findErrMsg := "", saveErr := { name := "", code := none, message := "" } }

/-- Claim C2: when the cache backend is unreachable (client absent or not
ready, i.e. `redisClient && redisClient.isReady` is false) and the store read
succeeds, `GET /api/products` returns 200 with `success:true` and exactly the
data the store returns — the request fails on no cache-unavailability path. -/
theorem C2_cache_unreachable_fail_open (st : SysState) (env : Env)
    (hc : env.cacheReady = false) (hf : env.findOk = true) :
    (handleGet st env).resp.status = 200 ∧
    (handleGet st env).resp.success = true ∧
    (handleGet st env).resp.data = some st.store := by
  simp [handleGet, cacheLookup, hc, hf]

/-- Witness for C2 at a concrete state with an unreachable cache. -/
theorem C2_witness :
    envBypassCache.cacheReady = false ∧ envBypassCache.findOk = true ∧
    ((handleGet ⟨[⟨"Widget", some 2, ""⟩], none⟩ envBypassCache).resp.status = 200 ∧
     (handleGet ⟨[⟨"Widget", some 2, ""⟩], none⟩ envBypassCache).resp.success = true ∧
     (handleGet ⟨[⟨"Widget", some 2, ""⟩], none⟩ envBypassCache).resp.data =
       some [⟨"Widget", some 2, ""⟩]) :=
  ⟨rfl, rfl, C2_cache_unreachable_fail_open ⟨[⟨"Widget", some 2, ""⟩], none⟩
    envBypassCache rfl rfl⟩

/-- Claim C3: a create request with price `-1` or price `"abc"`, whatever the
name and description, is rejected with status 400 and leaves the whole state
(in particular the store collection) unchanged. -/
theorem C3_invalid_price_rejected (st : SysState) (env : Env)
    (nm d : Option String) :
    ((handlePost st env ⟨nm, .num (-1), d⟩).resp.status = 400 ∧
     (handlePost st env ⟨nm, .num (-1), d⟩).resp.success = false ∧
     (handlePost st env ⟨nm, .num (-1), d⟩).state = st) ∧
    ((handlePost st env ⟨nm, .str "abc", d⟩).resp.status = 400 ∧
     (handlePost st env ⟨nm, .str "abc", d⟩).resp.success = false ∧
     (handlePost st env ⟨nm, .str "abc", d⟩).state = st) := by
  have h1 : JSVal.truthy (.num (-1)) = true := by decide
  have h2 : JSVal.isNaNJS (.num (-1)) = false := by decide
  have h3 : JSVal.ltZero (.num (-1)) = true := by decide
  have h4 : JSVal.truthy (.str "abc") = true := by decide
  have h5 : JSVal.isNaNJS (.str "abc") = true := by decide
  cases hnm : nameFalsy nm <;>
    simp [handlePost, requiredMissing, badPrice, hnm, h1, h2, h3, h4, h5]

/-- Claim C5: when the cache read returns a hit, the response is the cached
payload (status 200, provenance message), the store is never queried, and the
state is untouched. -/
theorem C5_cache_hit_bypasses_store (st : SysState) (env : Env)
    (l : List Product) (hr : env.cacheReady = true) (hg : env.cacheGetOk = true)
    (hc : st.cache = some l) :
    (handleGet st env).resp =
      { status := 200, success := true, data := some l,
        message := some "Products retrieved from cache", error := none } ∧
    (handleGet st env).storeQueried = false ∧
    (handleGet st env).state = st ∧
    (handleGet st env).cacheSets = [] := by
  simp [handleGet, cacheLookup, hr, hg, hc]

/-- Witness for C5: a concrete hit is served from the cache without a store
query. -/
theorem C5_witness :
    envAllOk.cacheReady = true ∧ envAllOk.cacheGetOk = true ∧
    ((handleGet ⟨[], some [⟨"Widget", some 2, ""⟩]⟩ envAllOk).resp =
      { status := 200, success := true, data := some [⟨"Widget", some 2, ""⟩],
        message := some "Products retrieved from cache", error := none } ∧
     (handleGet ⟨[], some [⟨"Widget", some 2, ""⟩]⟩ envAllOk).storeQueried = false ∧
     (handleGet ⟨[], some [⟨"Widget", some 2, ""⟩]⟩ envAllOk).state =
       ⟨[], some [⟨"Widget", some 2, ""⟩]⟩ ∧
     (handleGet ⟨[], some [⟨"Widget", some 2, ""⟩]⟩ envAllOk).cacheSets = []) :=
  ⟨rfl, rfl, C5_cache_hit_bypasses_store ⟨[], some [⟨"Widget", some 2, ""⟩]⟩
    envAllOk [⟨"Widget", some 2, ""⟩] rfl rfl rfl⟩

/-- Claim C10: a create request with price exactly `0` and any non-empty name
is rejected by the truthiness-based required-field check with status 400 and
the exact message `Name and price are required fields`, leaving the state
unchanged. -/
theorem C10_price_zero_rejected (st : SysState) (env : Env) (s : String)
    (d : Option String) (hs : s ≠ "") :
    (handlePost st env ⟨some s, .num 0, d⟩).resp.status = 400 ∧
    (handlePost st env ⟨some s, .num 0, d⟩).resp.success = false ∧
    (handlePost st env ⟨some s, .num 0, d⟩).resp.error =
      some "Name and price are required fields" ∧
    (handlePost st env ⟨some s, .num 0, d⟩).state = st := by
  have hreq : requiredMissing ⟨some s, .num 0, d⟩ = true := by
    simp [requiredMissing, JSVal.truthy]
  simp [handlePost, hreq]

/-- Witness for C10 at name `"Widget"`, price `0`. -/
theorem C10_witness :
    "Widget" ≠ "" ∧
    ((handlePost ⟨[], none⟩ envAllOk ⟨some "Widget", .num 0, none⟩).resp.status = 400 ∧
     (handlePost ⟨[], none⟩ envAllOk ⟨some "Widget", .num 0, none⟩).resp.success = false ∧
     (handlePost ⟨[], none⟩ envAllOk ⟨some "Widget", .num 0, none⟩).resp.error =
       some "Name and price are required fields" ∧
     (handlePost ⟨[], none⟩ envAllOk ⟨some "Widget", .num 0, none⟩).state = ⟨[], none⟩) :=
  ⟨by decide, C10_price_zero_rejected ⟨[], none⟩ envAllOk "Widget" none (by decide)⟩

/-- Counterexample to claim C1 as stated: `name = "Widget"`, `price = 0` is a
valid input per the claim (name non-empty, price a number with price ≥ 0),
yet the request is rejected with 400 and nothing is persisted, instead of
succeeding with 201. -/
theorem C1_counterexample :
    (handlePost ⟨[], none⟩ envAllOk ⟨some "Widget", .num 0, none⟩).resp.status = 400 ∧
    (handlePost ⟨[], none⟩ envAllOk ⟨some "Widget", .num 0, none⟩).state.store = [] := by
  decide

/-- Claim C1 (amended): for every create input with non-empty name and
numeric price strictly greater than 0, when the store save succeeds, POST
returns 201 with `success:true`, and a subsequent cache-bypassed
`GET /api/products` returns exactly the store collection, which includes a
record with the trimmed name and that price. -/
theorem C1_valid_create_then_listAll (st : SysState) (env : Env)
    (n : String) (q : ℚ) (d : Option String)
    (hn : n ≠ "") (hq : 0 < q) (hs : env.saveOk = true) :
    (handlePost st env ⟨some n, .num q, d⟩).resp.status = 201 ∧
    (handlePost st env ⟨some n, .num q, d⟩).resp.success = true ∧
    (handleGet (handlePost st env ⟨some n, .num q, d⟩).state envBypassCache).resp.data =
      some (handlePost st env ⟨some n, .num q, d⟩).state.store ∧
    ∃ p ∈ (handlePost st env ⟨some n, .num q, d⟩).state.store,
      p.name = trimStr n ∧ p.price = some q := by
  have hreq : requiredMissing ⟨some n, .num q, d⟩ = false := by
    simp [requiredMissing, nameFalsy, JSVal.truthy, hn]
    exact ne_of_gt hq
  have hbad : badPrice ⟨some n, .num q, d⟩ = false := by
    simp [badPrice, JSVal.isNaNJS, JSVal.ltZero, JSVal.toNumber, not_lt]
    exact le_of_lt hq
  have hstore : (handlePost st env ⟨some n, .num q, d⟩).state.store =
      st.store ++ [mkProduct ⟨some n, .num q, d⟩] := by
    simp only [handlePost, hreq, hbad, hs, Bool.false_eq_true, if_false, if_true]
    cases env.cacheReady <;> cases env.refreshFindOk <;> cases env.cacheSetOk <;> simp
  have hresp : (handlePost st env ⟨some n, .num q, d⟩).resp.status = 201 ∧
      (handlePost st env ⟨some n, .num q, d⟩).resp.success = true := by
    simp only [handlePost, hreq, hbad, hs, Bool.false_eq_true, if_false, if_true]
    cases env.cacheReady <;> cases env.refreshFindOk <;> cases env.cacheSetOk <;> simp
  refine ⟨hresp.1, hresp.2, ?_, ?_⟩
  · simp [handleGet, cacheLookup, envBypassCache]
  · refine ⟨mkProduct ⟨some n, .num q, d⟩, ?_, ?_, ?_⟩
    · rw [hstore]; simp
    · simp [mkProduct]
    · simp [mkProduct, JSVal.parseFloatJS]

/-- Witness for the amended C1 at `name = "Widget"`, `price = 2`. -/
theorem C1_witness :
    ("Widget" ≠ "" ∧ (0 : ℚ) < 2 ∧ envAllOk.saveOk = true) ∧
    ((handlePost ⟨[], none⟩ envAllOk ⟨some "Widget", .num 2, none⟩).resp.status = 201 ∧
     (handlePost ⟨[], none⟩ envAllOk ⟨some "Widget", .num 2, none⟩).resp.success = true ∧
     (handleGet (handlePost ⟨[], none⟩ envAllOk ⟨some "Widget", .num 2, none⟩).state
        envBypassCache).resp.data =
       some (handlePost ⟨[], none⟩ envAllOk ⟨some "Widget", .num 2, none⟩).state.store ∧
     ∃ p ∈ (handlePost ⟨[], none⟩ envAllOk ⟨some "Widget", .num 2, none⟩).state.store,
       p.name = trimStr "Widget" ∧ p.price = some 2) :=
  ⟨⟨by decide, by norm_num, rfl⟩,
    C1_valid_create_then_listAll ⟨[], none⟩ envAllOk "Widget" 2 none
      (by decide) (by norm_num) rfl⟩

/-- Counterexample to claim C4 as stated: the whitespace-only name `" "` is
truthy, so the create is accepted (201) and a record whose trimmed name is
empty is persisted — the claim predicted a `ValidationError` and no write. -/
theorem C4_counterexample :
    (handlePost ⟨[], none⟩ envAllOk ⟨some " ", .num 5, none⟩).resp.status = 201 ∧
    (handlePost ⟨[], none⟩ envAllOk ⟨some " ", .num 5, none⟩).state.store =
      [{ name := "", price := some 5, description := "" }] := by
  decide

/-- Claim C4 (amended): a create request whose raw name is missing or the
empty string fails with the 400 required-fields error and persists nothing;
a whitespace-only (non-empty) name, however, passes the truthiness check and
is persisted with its trimmed — hence empty — name. -/
theorem C4_falsy_name_rejected (st : SysState) (env : Env) (b : PostBody)
    (h : nameFalsy b.name = true) :
    (handlePost st env b).resp.status = 400 ∧
    (handlePost st env b).resp.success = false ∧
    (handlePost st env b).resp.error = some "Name and price are required fields" ∧
    (handlePost st env b).state = st := by
  have hreq : requiredMissing b = true := by simp [requiredMissing, h]
  simp [handlePost, hreq]

/-- Witness for the amended C4 at an absent name. -/
theorem C4_witness :
    nameFalsy (none : Option String) = true ∧
    ((handlePost ⟨[], none⟩ envAllOk ⟨none, .num 5, none⟩).resp.status = 400 ∧
     (handlePost ⟨[], none⟩ envAllOk ⟨none, .num 5, none⟩).resp.success = false ∧
     (handlePost ⟨[], none⟩ envAllOk ⟨none, .num 5, none⟩).resp.error =
       some "Name and price are required fields" ∧
     (handlePost ⟨[], none⟩ envAllOk ⟨none, .num 5, none⟩).state = ⟨[], none⟩) :=
  ⟨rfl, C4_falsy_name_rejected ⟨[], none⟩ envAllOk ⟨none, .num 5, none⟩ rfl⟩

/-- Claim C6: every cache entry written by either handler is a complete
snapshot of the full store collection from a single query — after any
request the cache is either untouched or holds exactly the full collection;
and a successful create with the cache reachable re-reads the whole
collection and overwrites the cache with that fresh full snapshot. -/
theorem C6_cache_holds_full_snapshots (st : SysState) (env : Env) (b : PostBody) :
    ((handleGet st env).state.store = st.store ∧
     ((handleGet st env).state.cache = st.cache ∨
      (handleGet st env).state.cache = some st.store)) ∧
    ((handlePost st env b).state.cache = st.cache ∨
     (handlePost st env b).state.cache = some (handlePost st env b).state.store) ∧
    (requiredMissing b = false → badPrice b = false → env.saveOk = true →
      env.cacheReady = true → env.refreshFindOk = true → env.cacheSetOk = true →
      (handlePost st env b).state.store = st.store ++ [mkProduct b] ∧
      (handlePost st env b).state.cache = some (st.store ++ [mkProduct b])) := by
  refine ⟨?_, ?_, ?_⟩
  · rcases hcl : cacheLookup st env with _ | l
    · cases hf : env.findOk
      · simp [handleGet, hcl, hf]
      · cases hcr : env.cacheReady
        · simp [handleGet, hcl, hf, hcr]
        · cases hlen : decide (st.store.length > 0)
          · simp [handleGet, hcl, hf, hcr, hlen]
          · cases hcs : env.cacheSetOk <;> simp [handleGet, hcl, hf, hcr, hlen, hcs]
    · simp [handleGet, hcl]
  · cases hreq : requiredMissing b
    · cases hbad : badPrice b
      · cases hso : env.saveOk
        · simp only [handlePost, hreq, hbad, hso, Bool.false_eq_true, if_false, if_true]
          split
          · simp
          · split <;> simp
        · cases hcr : env.cacheReady
          · simp [handlePost, hreq, hbad, hso, hcr]
          · cases hrf : env.refreshFindOk
            · simp [handlePost, hreq, hbad, hso, hcr, hrf]
            · cases hcs : env.cacheSetOk <;>
                simp [handlePost, hreq, hbad, hso, hcr, hrf, hcs]
      · simp [handlePost, hreq, hbad]
    · simp [handlePost, hreq]
  · intro hreq hbad hso hcr hrf hcs
    simp [handlePost, hreq, hbad, hso, hcr, hrf, hcs]

/-- Witness for C6: a concrete successful create refreshes the cache with the
full two-element collection. -/
theorem C6_witness :
    (requiredMissing ⟨some "Gadget", .num 3, none⟩ = false ∧
     badPrice ⟨some "Gadget", .num 3, none⟩ = false ∧
     envAllOk.saveOk = true ∧ envAllOk.cacheReady = true ∧
     envAllOk.refreshFindOk = true ∧ envAllOk.cacheSetOk = true) ∧
    ((handlePost ⟨[⟨"Widget", some 2, ""⟩], none⟩ envAllOk
        ⟨some "Gadget", .num 3, none⟩).state.store =
      [⟨"Widget", some 2, ""⟩] ++ [mkProduct ⟨some "Gadget", .num 3, none⟩] ∧
     (handlePost ⟨[⟨"Widget", some 2, ""⟩], none⟩ envAllOk
        ⟨some "Gadget", .num 3, none⟩).state.cache =
      some ([⟨"Widget", some 2, ""⟩] ++ [mkProduct ⟨some "Gadget", .num 3, none⟩])) :=
  ⟨⟨by decide, by decide, rfl, rfl, rfl, rfl⟩,
    (C6_cache_holds_full_snapshots ⟨[⟨"Widget", some 2, ""⟩], none⟩ envAllOk
      ⟨some "Gadget", .num 3, none⟩).2.2 (by decide) (by decide) rfl rfl rfl rfl⟩

/-- Claim C7: on the miss path of a successful read, a cache write is issued
exactly when the cache backend is reachable and the store result set is
non-empty (and it writes the full result set); and every cache write either
handler issues carries the fixed expiry of 3600 seconds. -/
theorem C7_cache_write_condition_and_ttl (st : SysState) (env : Env) (b : PostBody) :
    (cacheLookup st env = none → env.findOk = true →
      ((handleGet st env).cacheSets = [(st.store, 3600)] ↔
        (env.cacheReady = true ∧ st.store ≠ [])) ∧
      ((handleGet st env).cacheSets = [] ↔ ¬(env.cacheReady = true ∧ st.store ≠ []))) ∧
    (handleGet st env).cacheSets.all (fun w => w.2 == 3600) = true ∧
    (handlePost st env b).cacheSets.all (fun w => w.2 == 3600) = true := by
  refine ⟨?_, ?_, ?_⟩
  · intro hcl hf
    cases hcr : env.cacheReady
    · simp [handleGet, hcl, hf, hcr]
    · cases hlen : decide (st.store.length > 0)
      · have hmt : st.store = [] := by
          simpa [List.length_pos] using of_decide_eq_false hlen
        simp [handleGet, hcl, hf, hcr, hlen, hmt]
      · have hne : st.store ≠ [] := by
          simpa [List.length_pos] using of_decide_eq_true hlen
        simp [handleGet, hcl, hf, hcr, hlen, hne]
  · rcases hcl : cacheLookup st env with _ | l
    · cases hf : env.findOk
      · simp [handleGet, hcl, hf]
      · cases hcr : env.cacheReady
        · simp [handleGet, hcl, hf, hcr]
        · cases hlen : decide (st.store.length > 0) <;>
            simp [handleGet, hcl, hf, hcr, hlen]
    · simp [handleGet, hcl]
  · cases hreq : requiredMissing b
    · cases hbad : badPrice b
      · cases hso : env.saveOk
        · simp only [handlePost, hreq, hbad, hso, Bool.false_eq_true, if_false, if_true]
          split
          · simp
          · split <;> simp
        · cases hcr : env.cacheReady
          · simp [handlePost, hreq, hbad, hso, hcr]
          · cases hrf : env.refreshFindOk <;>
              simp [handlePost, hreq, hbad, hso, hcr, hrf]
      · simp [handlePost, hreq, hbad]
    · simp [handlePost, hreq]

/-- Witness for C7: a concrete cold-cache read over a non-empty store issues
exactly one cache write, of the whole result set. -/
theorem C7_witness :
    (cacheLookup ⟨[⟨"Widget", some 2, ""⟩], none⟩ envAllOk = none ∧
     envAllOk.findOk = true) ∧
    (handleGet ⟨[⟨"Widget", some 2, ""⟩], none⟩ envAllOk).cacheSets =
      [([⟨"Widget", some 2, ""⟩], 3600)] :=
  ⟨⟨rfl, rfl⟩,
    ((C7_cache_write_condition_and_ttl ⟨[⟨"Widget", some 2, ""⟩], none⟩ envAllOk
        ⟨none, .undef, none⟩).1 rfl rfl).1.mpr ⟨rfl, by decide⟩⟩

/-- Claim C8: a failed cache write never changes the response — for any
request, the full HTTP response (status and body) is the same whether the
`redisClient.set` call succeeds or throws, everything else being equal. -/
theorem C8_cache_write_failure_swallowed (st : SysState) (b : PostBody)
    (cr cg fo so rf : Bool) (fm : String) (se : JsError) :
    (handleGet st ⟨cr, cg, true, fo, so, rf, fm, se⟩).resp =
      (handleGet st ⟨cr, cg, false, fo, so, rf, fm, se⟩).resp ∧
    (handlePost st ⟨cr, cg, true, fo, so, rf, fm, se⟩ b).resp =
      (handlePost st ⟨cr, cg, false, fo, so, rf, fm, se⟩ b).resp := by
  constructor
  · rcases hc : st.cache with _ | l <;>
      cases cr <;> cases cg <;> cases fo <;>
        cases hlen : decide (st.store.length > 0) <;>
          simp [handleGet, cacheLookup, hc, hlen]
  · cases hreq : requiredMissing b <;> cases hbad : badPrice b <;>
      cases so <;> cases cr <;> cases rf <;>
        simp [handlePost, hreq, hbad]

/-- Claim C9: a store failure surfaces as a 500 with the underlying message:
a GET whose (reached) `Product.find` throws, and a POST whose `save()` throws
an error that is neither a `ValidationError` nor a duplicate-key error, both
respond 500 with `success:false` and the error's message. -/
theorem C9_store_failure_500 (st : SysState) (env : Env) (b : PostBody) :
    (cacheLookup st env = none → env.findOk = false →
      (handleGet st env).resp.status = 500 ∧
      (handleGet st env).resp.success = false ∧
      (handleGet st env).resp.error = some env.findErrMsg) ∧
    (requiredMissing b = false → badPrice b = false → env.saveOk = false →
      env.saveErr.name ≠ "ValidationError" → env.saveErr.code ≠ some 11000 →
      (handlePost st env b).resp.status = 500 ∧
      (handlePost st env b).resp.success = false ∧
      (handlePost st env b).resp.error = some env.saveErr.message ∧
      (handlePost st env b).state = st) := by
  constructor
  · intro hcl hf
    simp [handleGet, hcl, hf]
  · intro hreq hbad hso hname hcode
    have h1 : (env.saveErr.name == "ValidationError") = false := by
      simp [hname]
    have h2 : (env.saveErr.code == some 11000) = false := by
      simp [hcode]
    simp [handlePost, hreq, hbad, hso, h1, h2]

/-- Witness for C9: a concrete network-style store error on each route. -/
theorem C9_witness :
    (cacheLookup ⟨[], none⟩
        ⟨false, false, false, false, false, false, "find down",
          ⟨"MongoNetworkError", none, "save down"⟩⟩ = none ∧
     ((handleGet ⟨[], none⟩
        ⟨false, false, false, false, false, false, "find down",
          ⟨"MongoNetworkError", none, "save down"⟩⟩).resp.status = 500 ∧
      (handleGet ⟨[], none⟩
        ⟨false, false, false, false, false, false, "find down",
          ⟨"MongoNetworkError", none, "save down"⟩⟩).resp.success = false ∧
      (handleGet ⟨[], none⟩
        ⟨false, false, false, false, false, false, "find down",
          ⟨"MongoNetworkError", none, "save down"⟩⟩).resp.error = some "find down")) ∧
    ((handlePost ⟨[], none⟩
        ⟨false, false, false, false, false, false, "find down",
          ⟨"MongoNetworkError", none, "save down"⟩⟩ ⟨some "W", .num 2, none⟩).resp.status = 500 ∧
     (handlePost ⟨[], none⟩
        ⟨false, false, false, false, false, false, "find down",
          ⟨"MongoNetworkError", none, "save down"⟩⟩ ⟨some "W", .num 2, none⟩).resp.success = false ∧
     (handlePost ⟨[], none⟩
        ⟨false, false, false, false, false, false, "find down",
          ⟨"MongoNetworkError", none, "save down"⟩⟩ ⟨some "W", .num 2, none⟩).resp.error =
       some "save down" ∧
     (handlePost ⟨[], none⟩
        ⟨false, false, false, false, false, false, "find down",
          ⟨"MongoNetworkError", none, "save down"⟩⟩ ⟨some "W", .num 2, none⟩).state = ⟨[], none⟩) :=
  ⟨⟨rfl,
    (C9_store_failure_500 ⟨[], none⟩
      ⟨false, false, false, false, false, false, "find down",
        ⟨"MongoNetworkError", none, "save down"⟩⟩ ⟨some "W", .num 2, none⟩).1 rfl rfl⟩,
   (C9_store_failure_500 ⟨[], none⟩
      ⟨false, false, false, false, false, false, "find down",
        ⟨"MongoNetworkError", none, "save down"⟩⟩ ⟨some "W", .num 2, none⟩).2
     (by decide) (by decide) rfl (by decide) (by decide)⟩
